import Mathlib

/-!
Shallow embedding of the API gateway in `src/gateway/main.py` (FastAPI app):
JWT verification with a process-wide cache, the in-process token bucket,
the Redis fixed-window counter, and the `auth_and_rate_limit` middleware
that composes them and proxies admitted requests to the backend.

Python floats (clock readings, JWT timestamps) are modelled as rationals;
the bucket's `local_tokens` is a Python `int`, modelled as `ℤ`.
-/

namespace Gateway

/-- Clock readings (`time.time()` / `time.monotonic()`) and JWT timestamps,
modelled as rationals. -/
abbrev Time := ℚ

/-! ### Local token bucket (main.py lines 57-62 and 101-115)

The gateway keeps a single module-level bucket: `local_tokens = GLOBAL_RATE`
and `last_refill = time.monotonic()`.  `GLOBAL_RATE` is the configured
rate (env var, default 10000); it is passed as the parameter `R` below. -/

/-- State of the module-level bucket: `local_tokens` (a Python int) and
`last_refill` (a monotonic-clock reading). -/
structure Bucket where
  tokens : ℤ
  lastRefill : Time
deriving Repr, DecidableEq

/-- Initial module state (main.py lines 59-60): `local_tokens = GLOBAL_RATE`,
`last_refill = time.monotonic()` at import time `t0`. -/
def initialBucket (R : ℤ) (t0 : Time) : Bucket :=
  ⟨R, t0⟩

/-- Refill phase of `rate_limiter` (main.py lines 104-109): compute
`elapsed = now - last_refill`, `refill = elapsed * GLOBAL_RATE`; if
`refill >= 1`, set `local_tokens = min(GLOBAL_RATE, local_tokens + int(refill))`
and `last_refill = now`; otherwise leave both fields untouched.
Under the guard `1 ≤ refill` the Python truncation `int(refill)` equals
`⌊refill⌋`. -/
def localRefill (R : ℤ) (b : Bucket) (now : Time) : Bucket :=
  let elapsed : ℚ := now - b.lastRefill
  let refill : ℚ := elapsed * (R : ℚ)
  if 1 ≤ refill then
    { tokens := min R (b.tokens + ⌊refill⌋), lastRefill := now }
  else
    b

/-- One call of the local part of `rate_limiter` (main.py lines 103-115):
refill, then if `local_tokens <= 0` reject (HTTP 429 local limit), else
decrement and admit.  Returns the new bucket and whether the request passed
local admission. -/
def tryConsumeLocal (R : ℤ) (b : Bucket) (now : Time) : Bucket × Bool :=
  let b1 := localRefill R b now
  if b1.tokens ≤ 0 then (b1, false)
  else ({ b1 with tokens := b1.tokens - 1 }, true)

/-- A sequence of local-limiter calls at the given monotonic-clock readings
(the lock in main.py line 103 serializes them). -/
def runLocal (R : ℤ) (b : Bucket) : List Time → Bucket
  | [] => b
  | t :: ts => runLocal R (tryConsumeLocal R b t).1 ts

/-! ### JWT verification and cache (main.py lines 64-65 and 84-97)

`verify_jwt` consults the process-wide dict `jwt_cache : {token: (payload,
expire_time)}`; on a live hit it returns the cached payload without any
cryptographic work, otherwise it calls `jose.jwt.decode` and on success
stores `(payload, now + 60)`.

`jose.jwt.decode(token, JWT_SECRET, algorithms=["HS256"])` is library code;
it is modelled by its contract: decoding fails for a malformed token or a
bad signature, and, when an `exp` claim is present, when `exp < int(now)`
(jose compares against the wall clock truncated to whole seconds);
otherwise it returns the token's payload.  A token string is mapped to its
payload and signature verdict by an environment `World`. -/

/-- Decoded JWT claims: `sub` (may be absent) and `exp` (epoch seconds,
may be absent). -/
structure Payload where
  sub : Option String
  exp : Option Time
deriving Repr, DecidableEq

/-- What `jose.jwt.decode` would see for one token string: its payload and
whether its HS256 signature matches `JWT_SECRET`. -/
structure TokenInfo where
  payload : Payload
  sigOk : Bool
deriving Repr, DecidableEq

/-- Environment mapping each well-formed token string to its decode data;
a string outside the map is malformed (decode raises `JWTError`). -/
abbrev World := List (String × TokenInfo)

/-- Lookup in a Python dict modelled as an association list. -/
def assocGet {α : Type} (l : List (String × α)) (k : String) : Option α :=
  match l with
  | [] => none
  | (k0, v) :: rest => if k0 = k then some v else assocGet rest k

/-- Python dict assignment `d[k] = v`: replace the entry if present,
else append. -/
def assocSet {α : Type} (l : List (String × α)) (k : String) (v : α) :
    List (String × α) :=
  match l with
  | [] => [(k, v)]
  | (k0, v0) :: rest =>
    if k0 = k then (k0, v) :: rest else (k0, v0) :: assocSet rest k v

/-- Contract of `jose.jwt.decode` (main.py line 92): `none` models a raised
`JWTError` (malformed token, signature mismatch, or `exp` in the past). -/
def joseDecode (w : World) (now : Time) (tok : String) : Option Payload :=
  match assocGet w tok with
  | none => none
  | some info =>
    if info.sigOk then
      match info.payload.exp with
      | none => some info.payload
      | some e => if e < ((⌊now⌋ : ℤ) : ℚ) then none else some info.payload
    else none

/-- The process-wide `jwt_cache` dict: token string to `(payload,
expire_time)` (main.py line 65). -/
abbrev JwtCache := List (String × (Payload × Time))

/-- Result of one `verify_jwt` call: the returned payload or the raised
`HTTPException (status, detail)`, the cache afterwards, and whether
cryptographic verification (`jwt.decode`) actually ran. -/
structure VerifyResult where
  result : Except (ℕ × String) Payload
  cache : JwtCache
  didDecode : Bool
deriving Repr

/-- Cache-miss path of `verify_jwt` (main.py lines 91-97): decode; on
success insert `(payload, now + 60)` (the comment in the source says
"Cache for 60 seconds"); on `JWTError` raise `HTTPException(401, "Invalid
token")`. -/
def verifyMiss (w : World) (now : Time) (c : JwtCache) (tok : String) :
    VerifyResult :=
  match joseDecode w now tok with
  | some p => ⟨.ok p, assocSet c tok (p, now + 60), true⟩
  | none => ⟨.error (401, "Invalid token"), c, true⟩

/-- `verify_jwt` (main.py lines 84-97): return the cached payload when the
entry's expire time is still strictly in the future, otherwise decode
afresh. -/
def verifyJwt (w : World) (now : Time) (c : JwtCache) (tok : String) :
    VerifyResult :=
  match assocGet c tok with
  | some (p, e) => if now < e then ⟨.ok p, c, false⟩ else verifyMiss w now c tok
  | none => verifyMiss w now c tok

/-- The bucket bound of spec §3: `0 ≤ tokens ≤ capacity`, with
`capacity = GLOBAL_RATE`. -/
def bucketInv (R : ℤ) (b : Bucket) : Prop :=
  0 ≤ b.tokens ∧ b.tokens ≤ R

instance (R : ℤ) (b : Bucket) : Decidable (bucketInv R b) := by
  unfold bucketInv; infer_instance

/-- Refill as the sentence of spec §8 quoted by C8 reads: on every access the
token count becomes `min(capacity, tokens + R*T)` (exact rational arithmetic,
no integer truncation) and `lastRefill` becomes `now`. -/
def specRefill (R : ℤ) (b : Bucket) (now : Time) : ℚ × Time :=
  (min (R : ℚ) ((b.tokens : ℚ) + (now - b.lastRefill) * (R : ℚ)), now)

/-! ### Redis fixed-window counter (main.py lines 51-52, 58 and 117-124)

`rate_limiter` increments `rate:{api_key}:{int(time.time())}` with `INCR`;
when the increment returns 1 it sets `EXPIRE key 1`; when the post-increment
count exceeds `GLOBAL_RATE` it raises HTTP 429 "global limit".  Redis is
modelled as a map from keys to a count plus the TTL last set on the key; a
request additionally records the Redis commands it issued. -/

/-- One Redis key's state: its integer value and the TTL in seconds set by
`EXPIRE` (none if no expiry was ever set). -/
structure RedisEntry where
  count : ℕ
  ttl : Option ℕ
deriving Repr, DecidableEq

/-- The shared counter store. -/
abbrev RedisMap := List (String × RedisEntry)

/-- A Redis command issued by `rate_limiter`. -/
inductive RedisOp where
  | incr (key : String)
  | expire (key : String) (seconds : ℕ)
deriving Repr, DecidableEq

/-- Current integer value of a key (0 when absent, as `INCR` semantics). -/
def redisCount (m : RedisMap) (k : String) : ℕ :=
  match assocGet m k with
  | some e => e.count
  | none => 0

/-- `INCR key`: create at 1 or increment; returns the post-increment value. -/
def redisIncr (m : RedisMap) (k : String) : ℕ × RedisMap :=
  let c := redisCount m k + 1
  let t := match assocGet m k with
    | some e => e.ttl
    | none => none
  (c, assocSet m k ⟨c, t⟩)

/-- `EXPIRE key s`. -/
def redisExpire (m : RedisMap) (k : String) (s : ℕ) : RedisMap :=
  match assocGet m k with
  | some e => assocSet m k ⟨e.count, some s⟩
  | none => m

/-- `RATE_WINDOW = 1.0` (main.py line 58); the wall-clock window length in
seconds of the shared counter (keys are bucketed by `int(time.time())`). -/
def RATE_WINDOW : ℚ := 1

/-- The shared-counter key `f"rate:{api_key}:{int(time.time())}"`
(main.py line 118). -/
def rateKey (apiKey : String) (nowWall : Time) : String :=
  "rate:" ++ apiKey ++ ":" ++ toString ⌊nowWall⌋

/-- A failure raised inside `rate_limiter`: either a FastAPI
`HTTPException` (the two 429s) or the connection error the Redis client
raises when the store is unreachable (not an `HTTPException`). -/
inductive RLError where
  | httpExc (status : ℕ) (detail : String)
  | storeError
deriving Repr, DecidableEq

/-- Result of one `rate_limiter(api_key)` call: normal return or raised
error, the bucket and store afterwards, and the Redis commands issued. -/
structure RLResult where
  result : Except RLError Unit
  bucket : Bucket
  redis : RedisMap
  ops : List RedisOp
deriving Repr

/-- `rate_limiter` (main.py lines 101-124): local bucket under the lock
(refill, reject on empty, else consume), then `INCR` the window key
(raising a connection error if the store is unreachable), `EXPIRE key 1`
exactly when the increment created the key, and finally HTTP 429 "global
limit" when the post-increment count exceeds `GLOBAL_RATE`. -/
def rateLimiter (R : ℤ) (apiKey : String) (nowMono nowWall : Time)
    (redisUp : Bool) (b : Bucket) (m : RedisMap) : RLResult :=
  let p := tryConsumeLocal R b nowMono
  if p.2 then
    if redisUp then
      let key := rateKey apiKey nowWall
      let q := redisIncr m key
      let m2 := if q.1 = 1 then redisExpire q.2 key 1 else q.2
      let ops := if q.1 = 1 then [RedisOp.incr key, RedisOp.expire key 1]
        else [RedisOp.incr key]
      if R < (q.1 : ℤ) then
        ⟨.error (.httpExc 429 "Too many requests (global limit)"), p.1, m2, ops⟩
      else
        ⟨.ok (), p.1, m2, ops⟩
    else
      ⟨.error .storeError, p.1, m, []⟩
  else
    ⟨.error (.httpExc 429 "Too many requests (local limit)"), p.1, m, []⟩

/-- Inputs of one `rate_limiter` call in a sequence. -/
structure RLReq where
  apiKey : String
  nowMono : Time
  nowWall : Time
  redisUp : Bool
deriving Repr, DecidableEq

/-- A sequence of `rate_limiter` calls threading bucket and store, recording
for each call its outcome and the Redis commands it issued. -/
def runRL (R : ℤ) : List RLReq → Bucket × RedisMap →
    List (RLReq × Except RLError Unit × List RedisOp) × (Bucket × RedisMap)
  | [], s => ([], s)
  | r :: rs, (b, m) =>
    let res := rateLimiter R r.apiKey r.nowMono r.nowWall r.redisUp b m
    let rest := runRL R rs (res.bucket, res.redis)
    ((r, res.result, res.ops) :: rest.1, rest.2)

/-! ### JSON re-encoding performed by the proxy (main.py lines 178-183)

The proxy tries `backend_resp.json()` and falls back to `backend_resp.text`,
then returns `JSONResponse(status_code=..., content=content)`.  Starlette's
`JSONResponse.render` serializes `content` with `json.dumps(...,
ensure_ascii=False, separators=(",", ":"))` — so a JSON body is parsed and
re-serialized compactly, and a non-JSON body is serialized as a JSON string
literal (quoted and escaped), not relayed verbatim.

`json.loads` / `json.dumps` are library code, modelled here on the fragment
with integer numerals (no floats or `\\u` escapes); the bodies examined by
the claims lie inside this fragment. -/

/-- JSON values (numerals restricted to integers). -/
inductive Json where
  | null
  | bool (b : Bool)
  | num (n : ℤ)
  | str (s : String)
  | arr (elems : List Json)
  | obj (fields : List (String × Json))
deriving Repr

/-- Lower-case hex digit. -/
def hexDigit (n : ℕ) : Char :=
  if n < 10 then Char.ofNat (48 + n) else Char.ofNat (87 + n)

/-- Four-digit hex rendering for control-character escapes. -/
def hex4 (n : ℕ) : String :=
  String.mk [hexDigit (n / 4096 % 16), hexDigit (n / 256 % 16),
    hexDigit (n / 16 % 16), hexDigit (n % 16)]

/-- Escaping of one character inside a JSON string literal, as `json.dumps`
with `ensure_ascii=False` does: the quote, the backslash, the named control
escapes, `\\uXXXX` for other control characters, and everything else
verbatim. -/
def escapeJsonChar (c : Char) : String :=
  if c = Char.ofNat 34 then "\\\""
  else if c = Char.ofNat 92 then "\\\\"
  else if c = Char.ofNat 10 then "\\n"
  else if c = Char.ofNat 9 then "\\t"
  else if c = Char.ofNat 13 then "\\r"
  else if c = Char.ofNat 8 then "\\b"
  else if c = Char.ofNat 12 then "\\f"
  else if c.toNat < 32 then "\\u" ++ hex4 c.toNat
  else String.singleton c

/-- A JSON string literal. -/
def renderJsonString (s : String) : String :=
  "\"" ++ String.join (s.data.map escapeJsonChar) ++ "\""

mutual

/-- Compact serialization with separators `(",", ":")`, as Starlette's
`JSONResponse.render` calls `json.dumps`. -/
def jsonRender : Json → String
  | .null => "null"
  | .bool true => "true"
  | .bool false => "false"
  | .num n => toString n
  | .str s => renderJsonString s
  | .arr xs => "[" ++ jsonRenderList xs ++ "]"
  | .obj fs => "\x7b" ++ jsonRenderFields fs ++ "\x7d"

/-- Comma-joined array elements. -/
def jsonRenderList : List Json → String
  | [] => ""
  | [x] => jsonRender x
  | x :: y :: rest => jsonRender x ++ "," ++ jsonRenderList (y :: rest)

/-- Comma-joined `key:value` object fields. -/
def jsonRenderFields : List (String × Json) → String
  | [] => ""
  | [(k, v)] => renderJsonString k ++ ":" ++ jsonRender v
  | (k, v) :: f :: rest =>
    renderJsonString k ++ ":" ++ jsonRender v ++ "," ++ jsonRenderFields (f :: rest)

end

/-- JSON whitespace skipping (space, tab, newline, carriage return). -/
def skipWs : List Char → List Char
  | [] => []
  | c :: cs =>
    if c = Char.ofNat 32 ∨ c = Char.ofNat 9 ∨ c = Char.ofNat 10 ∨
        c = Char.ofNat 13 then
      skipWs cs
    else c :: cs

/-- Strip an expected literal character sequence. -/
def stripLit : List Char → List Char → Option (List Char)
  | [], s => some s
  | _ :: _, [] => none
  | p :: ps, c :: cs => if c = p then stripLit ps cs else none

/-- Parse the remainder of a JSON string literal after the opening quote:
returns the decoded content and the input after the closing quote.  The
`\\uXXXX` escape lies outside the modelled fragment. -/
def parseStringChars : List Char → Option (List Char × List Char)
  | [] => none
  | c :: cs =>
    if c = Char.ofNat 34 then some ([], cs)
    else if c = Char.ofNat 92 then
      match cs with
      | [] => none
      | e :: cs2 =>
        let d? : Option Char :=
          if e = Char.ofNat 34 then some (Char.ofNat 34)
          else if e = Char.ofNat 92 then some (Char.ofNat 92)
          else if e = Char.ofNat 47 then some (Char.ofNat 47)
          else if e = Char.ofNat 110 then some (Char.ofNat 10)
          else if e = Char.ofNat 116 then some (Char.ofNat 9)
          else if e = Char.ofNat 114 then some (Char.ofNat 13)
          else if e = Char.ofNat 98 then some (Char.ofNat 8)
          else if e = Char.ofNat 102 then some (Char.ofNat 12)
          else none
        match d? with
        | none => none
        | some d =>
          match parseStringChars cs2 with
          | none => none
          | some (content, rest) => some (d :: content, rest)
    else if c.toNat < 32 then none
    else
      match parseStringChars cs with
      | none => none
      | some (content, rest) => some (c :: content, rest)

/-- Take a maximal run of decimal digits. -/
def takeDigits : List Char → List Char × List Char
  | [] => ([], [])
  | c :: cs =>
    if c.isDigit then
      let p := takeDigits cs
      (c :: p.1, p.2)
    else ([], c :: cs)

/-- Numeric value of a digit run. -/
def digitsToNat (ds : List Char) : ℕ :=
  ds.foldl (fun a c => 10 * a + (c.toNat - 48)) 0

/-- Parse a JSON integer numeral (optional minus, no leading zeros); a
following `.`, `e` or `E` (a float) lies outside the modelled fragment. -/
def parseIntToken (s : List Char) : Option (ℤ × List Char) :=
  let p : Bool × List Char :=
    match s with
    | c :: cs => if c = Char.ofNat 45 then (true, cs) else (false, s)
    | [] => (false, [])
  match takeDigits p.2 with
  | ([], _) => none
  | (d :: ds, rest) =>
    if d = Char.ofNat 48 ∧ ds ≠ [] then none
    else
      let v : ℤ := digitsToNat (d :: ds)
      match rest with
      | r :: _ =>
        if r = Char.ofNat 46 ∨ r = Char.ofNat 101 ∨ r = Char.ofNat 69 then none
        else some (if p.1 then -v else v, rest)
      | [] => some (if p.1 then -v else v, rest)

mutual

/-- Fuel-bounded JSON value parser (the fragment `json.loads` accepts,
restricted to integer numerals); each recursive descent is paid for by at
least one consumed character, so fuel `length + 1` suffices. -/
def parseJsonVal : ℕ → List Char → Option (Json × List Char)
  | 0, _ => none
  | fuel + 1, s =>
    match skipWs s with
    | [] => none
    | c :: cs =>
      if c = Char.ofNat 34 then
        match parseStringChars cs with
        | some (content, rest) => some (.str (String.mk content), rest)
        | none => none
      else if c = Char.ofNat 123 then
        match skipWs cs with
        | d :: ds =>
          if d = Char.ofNat 125 then some (.obj [], ds)
          else
            match parseJsonFields fuel (d :: ds) with
            | some (fs, rest) => some (.obj fs, rest)
            | none => none
        | [] => none
      else if c = Char.ofNat 91 then
        match skipWs cs with
        | d :: ds =>
          if d = Char.ofNat 93 then some (.arr [], ds)
          else
            match parseJsonElems fuel (d :: ds) with
            | some (xs, rest) => some (.arr xs, rest)
            | none => none
        | [] => none
      else if c = Char.ofNat 110 then
        match stripLit [Char.ofNat 117, Char.ofNat 108, Char.ofNat 108] cs with
        | some rest => some (.null, rest)
        | none => none
      else if c = Char.ofNat 116 then
        match stripLit [Char.ofNat 114, Char.ofNat 117, Char.ofNat 101] cs with
        | some rest => some (.bool true, rest)
        | none => none
      else if c = Char.ofNat 102 then
        match stripLit [Char.ofNat 97, Char.ofNat 108, Char.ofNat 115,
            Char.ofNat 101] cs with
        | some rest => some (.bool false, rest)
        | none => none
      else
        match parseIntToken (c :: cs) with
        | some (n, rest) => some (.num n, rest)
        | none => none

/-- Nonempty comma-separated array elements up to the closing bracket. -/
def parseJsonElems : ℕ → List Char → Option (List Json × List Char)
  | 0, _ => none
  | fuel + 1, s =>
    match parseJsonVal fuel s with
    | none => none
    | some (v, rest) =>
      match skipWs rest with
      | c :: cs =>
        if c = Char.ofNat 44 then
          match parseJsonElems fuel cs with
          | some (vs, rest2) => some (v :: vs, rest2)
          | none => none
        else if c = Char.ofNat 93 then some ([v], cs)
        else none
      | [] => none

/-- Nonempty comma-separated `"key": value` fields up to the closing brace. -/
def parseJsonFields : ℕ → List Char → Option (List (String × Json) × List Char)
  | 0, _ => none
  | fuel + 1, s =>
    match skipWs s with
    | c :: cs =>
      if c = Char.ofNat 34 then
        match parseStringChars cs with
        | some (kchars, rest) =>
          match skipWs rest with
          | d :: ds =>
            if d = Char.ofNat 58 then
              match parseJsonVal fuel ds with
              | some (v, rest2) =>
                match skipWs rest2 with
                | e :: es =>
                  if e = Char.ofNat 44 then
                    match parseJsonFields fuel es with
                    | some (fs, rest3) =>
                      some ((String.mk kchars, v) :: fs, rest3)
                    | none => none
                  else if e = Char.ofNat 125 then
                    some ([(String.mk kchars, v)], es)
                  else none
                | [] => none
              | none => none
            else none
          | [] => none
        | none => none
      else none
    | [] => none

end

/-- `json.loads` on the modelled fragment: a full-input parse. -/
def parseJson (s : String) : Option Json :=
  match parseJsonVal (s.length + 1) s.data with
  | some (j, rest) => if skipWs rest = [] then some j else none
  | none => none

/-- Body produced by the proxy (main.py lines 178-183): `resp.json()`
re-serialized by `JSONResponse` when the backend body parses as JSON,
otherwise `resp.text` serialized as a JSON string literal. -/
def relayBody (b : String) : String :=
  match parseJson b with
  | some j => jsonRender j
  | none => jsonRender (Json.str b)

/-! ### The `auth_and_rate_limit` middleware (main.py lines 144-185)

One request through the middleware.  A FastAPI `HTTPException` raised
inside the middleware body (by `verify_jwt`) or a Redis connection error
raised by `redis_client.incr` is caught nowhere in the middleware — the
`try/except HTTPException` wraps only the `rate_limiter` call — so it
escapes the middleware; Starlette's exception handlers sit below user
middleware, hence such an exception propagates to the outermost server
error handler (a plain 500), not to a structured pipeline response.  The
`Outcome.escaped` constructor records exactly this. -/

/-- An exception escaping the middleware body. -/
inductive PyError where
  | httpExc (status : ℕ) (detail : String)
  | storeConn
deriving Repr, DecidableEq

/-- What the middleware produces for one request. -/
inductive Outcome where
  | response (status : ℕ) (detail : String)
  | proxied (status : ℕ) (body : String)
  | bypassed
  | escaped (e : PyError)
deriving Repr, DecidableEq

/-- Python `s.startswith(p)` on the underlying character sequences. -/
def listStartsWith : List Char → List Char → Bool
  | _, [] => true
  | [], _ :: _ => false
  | c :: cs, p :: ps => if c = p then listStartsWith cs ps else false

/-- Python `s.startswith(p)`. -/
def strStartsWith (s p : String) : Bool :=
  listStartsWith s.data p.data

/-- An inbound HTTP request as the middleware sees it. -/
structure Req where
  method : String
  path : String
  authorization : Option String
  body : String
deriving Repr, DecidableEq

/-- Per-request environment: clocks, store reachability, and the backend's
behaviour (`none` models connection failure/timeout, with `str(e)` as
`backendErrMsg`; `some (status, body)` a response). -/
structure Env where
  req : Req
  nowWall : Time
  nowMono : Time
  redisUp : Bool
  backend : Option (ℕ × String)
  backendErrMsg : String
deriving Repr, DecidableEq

/-- Process-wide mutable state of the gateway module. -/
structure GState where
  bucket : Bucket
  cache : JwtCache
  redis : RedisMap
deriving Repr, DecidableEq

/-- `auth_and_rate_limit` (main.py lines 144-185): bypass for
`/health`/`/metrics` paths; 401 "Missing token" without a `Bearer ` header;
`verify_jwt` (whose `HTTPException` escapes the middleware); 401 "Invalid
token payload" for a missing/empty `sub`; `rate_limiter` with only
`HTTPException` converted to a response (the store's connection error
escapes); then proxy to the backend, re-encoding the body and mapping any
request exception to a 502 response. -/
def authAndRateLimit (w : World) (R : ℤ) (env : Env) (st : GState) :
    Outcome × GState :=
  if strStartsWith env.req.path "/health" ∨ strStartsWith env.req.path "/metrics" then
    (.bypassed, st)
  else
    match env.req.authorization with
    | none => (.response 401 "Missing token", st)
    | some h =>
      if ¬ strStartsWith h "Bearer " then (.response 401 "Missing token", st)
      else
        let tok := h.drop 7
        let vr := verifyJwt w env.nowWall st.cache tok
        let st1 : GState := { st with cache := vr.cache }
        match vr.result with
        | .error sd => (.escaped (.httpExc sd.1 sd.2), st1)
        | .ok p =>
          let apiKey := (p.sub.getD "")
          if apiKey = "" then (.response 401 "Invalid token payload", st1)
          else
            let rl := rateLimiter R apiKey env.nowMono env.nowWall
              env.redisUp st1.bucket st1.redis
            let st2 : GState := { st1 with bucket := rl.bucket, redis := rl.redis }
            match rl.result with
            | .error (.httpExc s d) => (.response s d, st2)
            | .error .storeError => (.escaped .storeConn, st2)
            | .ok _ =>
              match env.backend with
              | none => (.response 502 env.backendErrMsg, st2)
              | some sb => (.proxied sb.1 (relayBody sb.2), st2)

/-- A sequence of requests through the middleware, threading the
process-wide state. -/
def runGateway (w : World) (R : ℤ) : List Env → GState → List Outcome × GState
  | [], st => ([], st)
  | e :: es, st =>
    let p := authAndRateLimit w R e st
    let rest := runGateway w R es p.2
    (p.1 :: rest.1, rest.2)

end Gateway

namespace Gateway

theorem assocSet_mem {α : Type} (l : List (String × α)) (k : String) (v : α) :
    ∀ e ∈ assocSet l k v, e ∈ l ∨ e = (k, v) := by
  induction l with
  | nil => intro e he; simp [assocSet] at he; right; exact he
  | cons hd tl ih =>
    obtain ⟨k0, v0⟩ := hd
    intro e he
    simp only [assocSet] at he
    by_cases hk : k0 = k
    · rw [if_pos hk] at he
      rcases List.mem_cons.1 he with h | h
      · right; rw [h, hk]
      · left; exact List.mem_cons_of_mem _ h
    · rw [if_neg hk] at he
      rcases List.mem_cons.1 he with h | h
      · left; rw [h]; exact List.mem_cons_self _ _
      · rcases ih e h with h2 | h2
        · left; exact List.mem_cons_of_mem _ h2
        · right; exact h2

theorem localRefill_inv (R : ℤ) (b : Bucket) (now : Time) (hR : 0 ≤ R)
    (h : bucketInv R b) : bucketInv R (localRefill R b now) := by
  obtain ⟨h0, h1⟩ := h
  simp only [localRefill]
  by_cases hc : (1 : ℚ) ≤ (now - b.lastRefill) * (R : ℚ)
  · rw [if_pos hc]
    have hf : (1 : ℤ) ≤ ⌊(now - b.lastRefill) * (R : ℚ)⌋ :=
      Int.le_floor.2 (by exact_mod_cast hc)
    exact ⟨le_min hR (by omega), min_le_left _ _⟩
  · rw [if_neg hc]
    exact ⟨h0, h1⟩

theorem tryConsumeLocal_inv (R : ℤ) (b : Bucket) (now : Time) (hR : 0 ≤ R)
    (h : bucketInv R b) : bucketInv R (tryConsumeLocal R b now).1 := by
  have h1 := localRefill_inv R b now hR h
  obtain ⟨ha, hb⟩ := h1
  simp only [tryConsumeLocal]
  by_cases hc : (localRefill R b now).tokens ≤ 0
  · rw [if_pos hc]
    exact ⟨ha, hb⟩
  · rw [if_neg hc]
    refine ⟨?_, ?_⟩ <;> dsimp only <;> omega

theorem runLocal_inv (R : ℤ) (hR : 0 ≤ R) (ts : List Time) (b : Bucket)
    (h : bucketInv R b) : bucketInv R (runLocal R b ts) := by
  induction ts generalizing b with
  | nil => exact h
  | cons t ts ih => exact ih _ (tryConsumeLocal_inv R b t hR h)

theorem assocGet_set {α : Type} (l : List (String × α)) (k : String) (v : α)
    (k' : String) :
    assocGet (assocSet l k v) k' = if k = k' then some v else assocGet l k' := by
  induction l with
  | nil =>
    simp only [assocSet, assocGet]
  | cons hd tl ih =>
    obtain ⟨k0, v0⟩ := hd
    by_cases h0 : k0 = k
    · subst h0
      simp only [assocSet, if_pos rfl, assocGet]
      by_cases h1 : k0 = k'
      · simp [h1]
      · simp [h1]
    · simp only [assocSet, if_neg h0, assocGet]
      by_cases h1 : k0 = k'
      · subst h1
        have h2 : ¬ (k = k0) := fun hh => h0 hh.symm
        simp [h2]
      · simp [h1, ih]

theorem redisCount_incr (m : RedisMap) (k k' : String) :
    redisCount (redisIncr m k).2 k'
      = if k = k' then redisCount m k + 1 else redisCount m k' := by
  simp only [redisIncr, redisCount, assocGet_set]
  by_cases h : k = k'
  · simp [h]
  · simp [h]

theorem redisCount_expire (m : RedisMap) (k : String) (s : ℕ) (k' : String) :
    redisCount (redisExpire m k s) k' = redisCount m k' := by
  simp only [redisExpire]
  cases hg : assocGet m k with
  | none => rfl
  | some e =>
    simp only [redisCount, assocGet_set]
    by_cases h : k = k'
    · subst h; simp [hg]
    · simp [h]

theorem redisCount_le_incr (m : RedisMap) (key k : String) :
    redisCount m k ≤ redisCount (redisIncr m key).2 k := by
  rw [redisCount_incr]
  by_cases h : key = k
  · subst h; simp
  · simp [h]

theorem rateLimiter_count_mono (R : ℤ) (a : String) (tm tw : Time)
    (up : Bool) (b : Bucket) (m : RedisMap) (k : String) :
    redisCount m k ≤ redisCount (rateLimiter R a tm tw up b m).redis k := by
  simp only [rateLimiter]
  cases h1 : (tryConsumeLocal R b tm).2 with
  | false => simp
  | true =>
    cases up with
    | false => simp
    | true =>
      simp only [if_true]
      rw [apply_ite RLResult.redis]
      dsimp only
      rw [ite_self]
      by_cases hq : (redisIncr m (rateKey a tw)).1 = 1
      · rw [if_pos hq, redisCount_expire]
        exact redisCount_le_incr m (rateKey a tw) k
      · rw [if_neg hq]
        exact redisCount_le_incr m (rateKey a tw) k

theorem rateLimiter_denied_of_exceeded (R : ℤ) (a : String) (tm tw : Time)
    (up : Bool) (b : Bucket) (m : RedisMap)
    (h : R < (redisCount m (rateKey a tw) : ℤ)) :
    (rateLimiter R a tm tw up b m).result ≠ .ok () := by
  simp only [rateLimiter]
  cases h1 : (tryConsumeLocal R b tm).2 with
  | false => simp
  | true =>
    cases up with
    | false => simp
    | true =>
      have hq : (redisIncr m (rateKey a tw)).1 = redisCount m (rateKey a tw) + 1 := rfl
      have hc : R < (((redisIncr m (rateKey a tw)).1 : ℕ) : ℤ) := by
        rw [hq]; push_cast; omega
      simp [hc]

theorem rateLimiter_expire_ops (R : ℤ) (a : String) (tm tw : Time)
    (up : Bool) (b : Bucket) (m : RedisMap) (k : String) (n : ℕ)
    (h : RedisOp.expire k n ∈ (rateLimiter R a tm tw up b m).ops) :
    k = rateKey a tw ∧ redisCount m k = 0 ∧ n = 1 := by
  revert h
  simp only [rateLimiter]
  cases h1 : (tryConsumeLocal R b tm).2 with
  | false => intro h; simp at h
  | true =>
    cases up with
    | false => intro h; simp at h
    | true =>
      simp only [if_true]
      rw [apply_ite RLResult.ops]
      dsimp only
      rw [ite_self]
      have hq : (redisIncr m (rateKey a tw)).1 = redisCount m (rateKey a tw) + 1 := rfl
      by_cases hone : (redisIncr m (rateKey a tw)).1 = 1
      · rw [if_pos hone]
        intro h
        have h0 : redisCount m (rateKey a tw) = 0 := by omega
        rcases List.mem_cons.1 h with heq | h2
        · simp at heq
        · have heq := List.mem_singleton.1 h2
          simp only [RedisOp.expire.injEq] at heq
          obtain ⟨hk, hn⟩ := heq
          exact ⟨hk, hk ▸ h0, hn⟩
      · rw [if_neg hone]
        intro h
        have heq := List.mem_singleton.1 h
        simp at heq

theorem rateLimiter_expire_on_creation (R : ℤ) (a : String) (tm tw : Time)
    (b : Bucket) (m : RedisMap)
    (hloc : (tryConsumeLocal R b tm).2 = true)
    (h0 : redisCount m (rateKey a tw) = 0) :
    RedisOp.expire (rateKey a tw) 1 ∈ (rateLimiter R a tm tw true b m).ops := by
  simp only [rateLimiter, hloc]
  have hq : (redisIncr m (rateKey a tw)).1 = redisCount m (rateKey a tw) + 1 := rfl
  have hone : (redisIncr m (rateKey a tw)).1 = 1 := by omega
  simp only [if_true]
  rw [apply_ite RLResult.ops]
  dsimp only
  rw [ite_self, if_pos hone]
  simp


theorem runRL_count_mono (R : ℤ) (reqs : List RLReq) (s : Bucket × RedisMap)
    (k : String) : redisCount s.2 k ≤ redisCount (runRL R reqs s).2.2 k := by
  induction reqs generalizing s with
  | nil => exact le_refl _
  | cons r rs ih =>
    obtain ⟨b, m⟩ := s
    simp only [runRL]
    exact le_trans (rateLimiter_count_mono R r.apiKey r.nowMono r.nowWall
      r.redisUp b m k)
      (ih ((rateLimiter R r.apiKey r.nowMono r.nowWall r.redisUp b m).bucket,
        (rateLimiter R r.apiKey r.nowMono r.nowWall r.redisUp b m).redis))

theorem runRL_denied (R : ℤ) (reqs : List RLReq) :
    ∀ (b : Bucket) (m : RedisMap) (k : String), R < (redisCount m k : ℤ) →
      ∀ trip ∈ (runRL R reqs (b, m)).1,
        rateKey trip.1.apiKey trip.1.nowWall = k → trip.2.1 ≠ .ok () := by
  induction reqs with
  | nil => intro b m k h trip htrip; simp [runRL] at htrip
  | cons r rs ih =>
    intro b m k h trip htrip hkey
    simp only [runRL, List.mem_cons] at htrip
    rcases htrip with h1 | h1
    · subst h1
      dsimp only at hkey
      intro hok
      dsimp only at hok
      exact rateLimiter_denied_of_exceeded R r.apiKey r.nowMono r.nowWall
        r.redisUp b m (by rw [hkey]; exact h) hok
    · have hmono := rateLimiter_count_mono R r.apiKey r.nowMono r.nowWall
        r.redisUp b m k
      exact ih (rateLimiter R r.apiKey r.nowMono r.nowWall r.redisUp b m).bucket
        (rateLimiter R r.apiKey r.nowMono r.nowWall r.redisUp b m).redis k
        (by omega) trip h1 hkey

theorem runRL_expire_ttl (R : ℤ) (reqs : List RLReq) :
    ∀ (s : Bucket × RedisMap), ∀ trip ∈ (runRL R reqs s).1, ∀ k n,
      RedisOp.expire k n ∈ trip.2.2 → n = 1 := by
  induction reqs with
  | nil => intro s trip htrip; simp [runRL] at htrip
  | cons r rs ih =>
    intro s trip htrip k n hop
    obtain ⟨b, m⟩ := s
    simp only [runRL, List.mem_cons] at htrip
    rcases htrip with h1 | h1
    · subst h1
      dsimp only at hop
      exact (rateLimiter_expire_ops R r.apiKey r.nowMono r.nowWall r.redisUp
        b m k n hop).2.2
    · exact ih ((rateLimiter R r.apiKey r.nowMono r.nowWall r.redisUp b m).bucket,
        (rateLimiter R r.apiKey r.nowMono r.nowWall r.redisUp b m).redis)
        trip h1 k n hop

theorem verifyMiss_cache_mem (w : World) (now : Time) (c : JwtCache)
    (tok : String) :
    ∀ e ∈ (verifyMiss w now c tok).cache, e ∈ c ∨ e.2.2 = now + 60 := by
  intro e he
  simp only [verifyMiss] at he
  cases hj : joseDecode w now tok with
  | none => rw [hj] at he; exact Or.inl he
  | some p =>
    rw [hj] at he
    dsimp only at he
    rcases assocSet_mem c tok (p, now + 60) e he with h | h
    · exact Or.inl h
    · right; rw [h]

/-- C2: the code accepts an expired credential when it was cached while
still valid.  A token with `exp = 10` is verified at `t = 0` (cached until
`t = 60`); re-presented at `t = 30`, when `exp` is 20 seconds in the past,
`verify_jwt` returns the cached payload without re-verification
(`didDecode = false`) — even though a fresh decode at `t = 30`
(`joseDecode = none`) would reject it.  The claim (and spec §3/§4.1) require
rejection with 401 `AUTH_INVALID` at any verification time past `exp`. -/
theorem c2_expired_credential_served_from_cache :
    ((10 : ℚ) < 30) ∧
    (verifyJwt [("tok2", ⟨⟨some "alice", some 10⟩, true⟩)] 30
      ((verifyJwt [("tok2", ⟨⟨some "alice", some 10⟩, true⟩)] 0 [] "tok2").cache)
      "tok2").result = .ok ⟨some "alice", some 10⟩ ∧
    (verifyJwt [("tok2", ⟨⟨some "alice", some 10⟩, true⟩)] 30
      ((verifyJwt [("tok2", ⟨⟨some "alice", some 10⟩, true⟩)] 0 [] "tok2").cache)
      "tok2").didDecode = false ∧
    joseDecode [("tok2", ⟨⟨some "alice", some 10⟩, true⟩)] 30 "tok2" = none := by
  refine ⟨by norm_num, ?_, ?_, ?_⟩ <;>
    simp [verifyJwt, verifyMiss, joseDecode, assocGet, assocSet] <;> norm_num

/-- C3 counterexample: verifying a token whose `exp` is 10 at time 0 inserts
the cache entry with `cacheExpiry = 0 + 60 = 60`, and `60 ≤ expiresAt = 10`
is false — the code does not cap the entry's expiry at `Claims.expiresAt`
as the claim states. -/
theorem c3_counterexample :
    (verifyJwt [("tok3", ⟨⟨some "alice", some 10⟩, true⟩)] 0 [] "tok3").cache
      = [("tok3", (⟨some "alice", some 10⟩, 60))] ∧
    (Payload.mk (some "alice") (some 10)).exp = some 10 ∧
    ¬ ((60 : ℚ) ≤ 10) := by
  refine ⟨?_, rfl, by norm_num⟩
  simp [verifyJwt, verifyMiss, joseDecode, assocGet, assocSet]
  norm_num

/-- C3 (amended): every entry in the verification cache after a `verify_jwt`
call either was already present before the call or was inserted with
`cacheExpiry = now + 60` exactly.  Hence `cacheExpiry ≤ verification time +
60s` holds for every inserted entry, but the second half of the claimed
invariant — `cacheExpiry ≤ Claims.expiresAt` — is not enforced: the code
stores a flat `now + 60` with no `min` against `exp`. -/
theorem c3_cache_entry_ttl (w : World) (now : Time) (c : JwtCache)
    (tok : String) :
    ∀ e ∈ (verifyJwt w now c tok).cache, e ∈ c ∨ e.2.2 = now + 60 := by
  intro e he
  simp only [verifyJwt] at he
  cases hg : assocGet c tok with
  | none =>
    rw [hg] at he
    exact verifyMiss_cache_mem w now c tok e he
  | some pe =>
    obtain ⟨p, t⟩ := pe
    rw [hg] at he
    dsimp only at he
    by_cases ht : now < t
    · rw [if_pos ht] at he
      exact Or.inl he
    · rw [if_neg ht] at he
      exact verifyMiss_cache_mem w now c tok e he

/-- C3 witness: the entry inserted at time 0 for a token with `exp = 10`
satisfies the amended invariant (its expiry is `0 + 60`). -/
theorem c3_cache_entry_ttl_witness :
    ("tok3", (Payload.mk (some "alice") (some 10), (60 : ℚ))) ∈ ([] : JwtCache)
      ∨ (("tok3", (Payload.mk (some "alice") (some 10), (60 : ℚ))) :
          String × Payload × Time).2.2 = 0 + 60 :=
  c3_cache_entry_ttl [("tok3", ⟨⟨some "alice", some 10⟩, true⟩)] 0 [] "tok3"
    ("tok3", (⟨some "alice", some 10⟩, 60))
    (by simp [verifyJwt, verifyMiss, joseDecode, assocGet, assocSet]; norm_num)

/-- C6 counterexample: the `EXPIRE` issued when a key is created carries
TTL = 1 second, which is exactly `RATE_WINDOW` (1 second), not a duration
strictly greater than the window length as the claim states. -/
theorem c6_counterexample :
    (rateLimiter 2 "a" 0 0 true ⟨2, 0⟩ []).ops
      = [RedisOp.incr "rate:a:0", RedisOp.expire "rate:a:0" 1] ∧
    ¬ (RATE_WINDOW < ((1 : ℕ) : ℚ)) := by
  constructor
  · have hk : rateKey "a" 0 = "rate:a:0" := rfl
    simp [rateLimiter, tryConsumeLocal, localRefill, redisIncr, redisCount,
      assocGet, hk]
  · norm_num [RATE_WINDOW]

/-- C6 (amended): for every `(identity, window)` key of the shared limiter,
over any sequence of `rate_limiter` calls: the counter is only ever
incremented (monotonically nondecreasing, with no rollback on rejected
requests); once the count exceeds `GLOBAL_RATE`, every further call for
that key is denied (never returns normally); every `EXPIRE` issued carries
TTL = 1 second — equal to the window length, hence at most 2 window-lengths
but not strictly greater than the window as claimed; and an `EXPIRE` is
issued exactly on the increment that creates the key (count 0 → 1): any
emitted expire targets a freshly created key, and a call that passes local
admission against a reachable store with a fresh key does emit it. -/
theorem c6_shared_counter (R : ℤ) (reqs : List RLReq) (b : Bucket)
    (m : RedisMap) (k : String) :
    (redisCount m k ≤ redisCount (runRL R reqs (b, m)).2.2 k) ∧
    (R < (redisCount m k : ℤ) →
      ∀ trip ∈ (runRL R reqs (b, m)).1,
        rateKey trip.1.apiKey trip.1.nowWall = k → trip.2.1 ≠ .ok ()) ∧
    (∀ trip ∈ (runRL R reqs (b, m)).1, ∀ key n,
      RedisOp.expire key n ∈ trip.2.2 → n = 1 ∧ ((n : ℚ) ≤ 2 * RATE_WINDOW)) ∧
    (∀ (a : String) (tm tw : Time) (up : Bool) (b2 : Bucket) (m2 : RedisMap)
        (key : String) (n : ℕ),
      RedisOp.expire key n ∈ (rateLimiter R a tm tw up b2 m2).ops →
        key = rateKey a tw ∧ redisCount m2 key = 0 ∧ n = 1) ∧
    (∀ (a : String) (tm tw : Time) (b2 : Bucket) (m2 : RedisMap),
      (tryConsumeLocal R b2 tm).2 = true → redisCount m2 (rateKey a tw) = 0 →
        RedisOp.expire (rateKey a tw) 1 ∈ (rateLimiter R a tm tw true b2 m2).ops) := by
  refine ⟨runRL_count_mono R reqs (b, m) k, runRL_denied R reqs b m k, ?_, ?_, ?_⟩
  · intro trip htrip key n hop
    have h1 := runRL_expire_ttl R reqs (b, m) trip htrip key n hop
    refine ⟨h1, ?_⟩
    rw [h1]
    norm_num [RATE_WINDOW]
  · intro a tm tw up b2 m2 key n hop
    exact rateLimiter_expire_ops R a tm tw up b2 m2 key n hop
  · intro a tm tw b2 m2 h1 h2
    exact rateLimiter_expire_on_creation R a tm tw b2 m2 h1 h2

/-- C6 witness: with `GLOBAL_RATE = 1` and the key `rate:a:0` already at
count 2, the single request in the run is denied (its recorded outcome is
not a normal return). -/
theorem c6_shared_counter_witness :
    ((⟨"a", 0, 0, true⟩ : RLReq),
      (rateLimiter 1 "a" 0 0 true ⟨5, 0⟩
        [("rate:a:0", ⟨2, some 1⟩)]).result,
      (rateLimiter 1 "a" 0 0 true ⟨5, 0⟩
        [("rate:a:0", ⟨2, some 1⟩)]).ops).2.1 ≠ .ok () :=
  (c6_shared_counter 1 [⟨"a", 0, 0, true⟩] ⟨5, 0⟩
    [("rate:a:0", ⟨2, some 1⟩)] "rate:a:0").2.1
    (by norm_num [redisCount, assocGet])
    _ (by simp [runRL]) rfl

/-- C9: a request rejected by the local limiter raises the local-limit 429
before any Redis interaction: the store is left unchanged and no Redis
command is issued, so the global `(identity, window)` count is untouched. -/
theorem c9_local_reject_frames_redis (R : ℤ) (a : String) (tm tw : Time)
    (up : Bool) (b : Bucket) (m : RedisMap)
    (h : (tryConsumeLocal R b tm).2 = false) :
    (rateLimiter R a tm tw up b m).result
      = .error (.httpExc 429 "Too many requests (local limit)") ∧
    (rateLimiter R a tm tw up b m).redis = m ∧
    (rateLimiter R a tm tw up b m).ops = [] := by
  simp [rateLimiter, h]

/-- C9 witness: an empty bucket at time 0 rejects locally and the store is
untouched. -/
theorem c9_local_reject_frames_redis_witness :
    (tryConsumeLocal 2 ⟨0, 0⟩ 0).2 = false ∧
    (rateLimiter 2 "a" 0 7 true ⟨0, 0⟩ [("x", ⟨3, none⟩)]).redis
      = [("x", ⟨3, none⟩)] ∧
    (rateLimiter 2 "a" 0 7 true ⟨0, 0⟩ [("x", ⟨3, none⟩)]).ops = [] := by
  have h : (tryConsumeLocal 2 (⟨0, 0⟩ : Bucket) 0).2 = false := by
    simp [tryConsumeLocal, localRefill]
  exact ⟨h, (c9_local_reject_frames_redis 2 "a" 0 7 true ⟨0, 0⟩
    [("x", ⟨3, none⟩)] h).2.1,
    (c9_local_reject_frames_redis 2 "a" 0 7 true ⟨0, 0⟩
    [("x", ⟨3, none⟩)] h).2.2⟩

theorem rateLimiter_bucket_eq (R : ℤ) (a : String) (tm tw : Time) (up : Bool)
    (b : Bucket) (m : RedisMap) :
    (rateLimiter R a tm tw up b m).bucket = (tryConsumeLocal R b tm).1 := by
  simp only [rateLimiter]
  cases h1 : (tryConsumeLocal R b tm).2 with
  | false => simp
  | true =>
    cases up with
    | false => simp
    | true =>
      simp only [if_true]
      rw [apply_ite RLResult.bucket]
      dsimp only
      rw [ite_self]

theorem rateLimiter_local_iff (R : ℤ) (a : String) (tm tw : Time) (up : Bool)
    (b : Bucket) (m : RedisMap) :
    ((rateLimiter R a tm tw up b m).result
      = .error (.httpExc 429 "Too many requests (local limit)"))
      ↔ (tryConsumeLocal R b tm).2 = false := by
  cases h1 : (tryConsumeLocal R b tm).2 with
  | false => simp [rateLimiter, h1]
  | true =>
    cases up with
    | false => simp [rateLimiter, h1]
    | true =>
      by_cases hc : R < (((redisIncr m (rateKey a tw)).1 : ℕ) : ℤ)
      · simp [rateLimiter, h1, hc]
      · simp [rateLimiter, h1, hc]

/-- C1 counterexample: with `GLOBAL_RATE = 2`, identity `a` (tokens `ta`)
sends two admitted requests at time 0; the first request ever made by the
never-seen identity `b` (token `tb`), also at time 0, is rejected by local
admission with 429 "local limit" — because the gateway keeps one
process-wide bucket, not one per identity, and `a`'s traffic drained it. -/
theorem c1_counterexample :
    (runGateway
      [("ta", ⟨⟨some "a", some 100⟩, true⟩), ("tb", ⟨⟨some "b", some 100⟩, true⟩)] 2
      [⟨⟨"GET", "/data", some "Bearer ta", ""⟩, 0, 0, true, some (200, "ok"), "e"⟩,
       ⟨⟨"GET", "/data", some "Bearer ta", ""⟩, 0, 0, true, some (200, "ok"), "e"⟩,
       ⟨⟨"GET", "/data", some "Bearer tb", ""⟩, 0, 0, true, some (200, "ok"), "e"⟩]
      ⟨⟨2, 0⟩, [], []⟩).1
      = [.proxied 200 "\"ok\"", .proxied 200 "\"ok\"",
         .response 429 "Too many requests (local limit)"] := by
  have hd1 : ("Bearer ta".drop 7) = "ta" := rfl
  have hd2 : ("Bearer tb".drop 7) = "tb" := rfl
  have hrel : relayBody "ok" = "\"ok\"" := rfl
  have hk : rateKey "a" 0 = "rate:a:0" := rfl
  have s1 : authAndRateLimit
      [("ta", ⟨⟨some "a", some 100⟩, true⟩), ("tb", ⟨⟨some "b", some 100⟩, true⟩)] 2
      ⟨⟨"GET", "/data", some "Bearer ta", ""⟩, 0, 0, true, some (200, "ok"), "e"⟩
      ⟨⟨2, 0⟩, [], []⟩
      = (.proxied 200 "\"ok\"",
         ⟨⟨1, 0⟩, [("ta", (⟨some "a", some 100⟩, 60))],
          [("rate:a:0", ⟨1, some 1⟩)]⟩) := by
    simp [authAndRateLimit, strStartsWith, listStartsWith, hd1, hrel, hk,
      verifyJwt, verifyMiss, joseDecode, assocGet, assocSet, rateLimiter,
      tryConsumeLocal, localRefill, redisIncr, redisCount, redisExpire]
    try norm_num
    try simp [hk]
  have s2 : authAndRateLimit
      [("ta", ⟨⟨some "a", some 100⟩, true⟩), ("tb", ⟨⟨some "b", some 100⟩, true⟩)] 2
      ⟨⟨"GET", "/data", some "Bearer ta", ""⟩, 0, 0, true, some (200, "ok"), "e"⟩
      ⟨⟨1, 0⟩, [("ta", (⟨some "a", some 100⟩, 60))], [("rate:a:0", ⟨1, some 1⟩)]⟩
      = (.proxied 200 "\"ok\"",
         ⟨⟨0, 0⟩, [("ta", (⟨some "a", some 100⟩, 60))],
          [("rate:a:0", ⟨2, some 1⟩)]⟩) := by
    simp [authAndRateLimit, strStartsWith, listStartsWith, hd1, hrel, hk,
      verifyJwt, verifyMiss, joseDecode, assocGet, assocSet, rateLimiter,
      tryConsumeLocal, localRefill, redisIncr, redisCount, redisExpire]
    try norm_num
    try simp [hk]
  have s3 : (authAndRateLimit
      [("ta", ⟨⟨some "a", some 100⟩, true⟩), ("tb", ⟨⟨some "b", some 100⟩, true⟩)] 2
      ⟨⟨"GET", "/data", some "Bearer tb", ""⟩, 0, 0, true, some (200, "ok"), "e"⟩
      ⟨⟨0, 0⟩, [("ta", (⟨some "a", some 100⟩, 60))],
       [("rate:a:0", ⟨2, some 1⟩)]⟩).1
      = .response 429 "Too many requests (local limit)" := by
    simp [authAndRateLimit, strStartsWith, listStartsWith, hd2, hrel,
      verifyJwt, verifyMiss, joseDecode, assocGet, assocSet, rateLimiter,
      tryConsumeLocal, localRefill, redisIncr, redisCount, redisExpire]
    try norm_num
    try simp
  simp [runGateway, s1, s2, s3]

/-- C1 (amended): the local admission limiter keeps a single process-wide
token bucket shared by all identities (capacity `GLOBAL_RATE`, starting
full), not one bucket per identity: the first request processed by a fresh
gateway process passes local admission, and the local-admission outcome and
resulting bucket are completely independent of the caller's identity — so a
never-seen identity's first request can be rejected when other identities
have already drained the shared bucket. -/
theorem c1_single_shared_bucket (R : ℤ) (hR : 1 ≤ R) (t0 now : Time)
    (k1 k2 : String) (tm tw : Time) (up : Bool) (b : Bucket) (m : RedisMap) :
    (tryConsumeLocal R (initialBucket R t0) now).2 = true ∧
    (rateLimiter R k1 tm tw up b m).bucket
      = (rateLimiter R k2 tm tw up b m).bucket ∧
    ((rateLimiter R k1 tm tw up b m).result
        = .error (.httpExc 429 "Too many requests (local limit)") ↔
      (rateLimiter R k2 tm tw up b m).result
        = .error (.httpExc 429 "Too many requests (local limit)")) := by
  refine ⟨?_, ?_, ?_⟩
  · have htok : (localRefill R (initialBucket R t0) now).tokens = R := by
      simp only [localRefill, initialBucket]
      by_cases hc : (1 : ℚ) ≤ (now - t0) * (R : ℚ)
      · rw [if_pos hc]
        have hf : (1 : ℤ) ≤ ⌊(now - t0) * (R : ℚ)⌋ :=
          Int.le_floor.2 (by exact_mod_cast hc)
        dsimp only
        omega
      · rw [if_neg hc]
    simp only [tryConsumeLocal]
    rw [if_neg (by omega : ¬ (localRefill R (initialBucket R t0) now).tokens ≤ 0)]
  · rw [rateLimiter_bucket_eq, rateLimiter_bucket_eq]
  · rw [rateLimiter_local_iff, rateLimiter_local_iff]

/-- C1 witness: concrete instantiation of the amended statement. -/
theorem c1_single_shared_bucket_witness :
    (tryConsumeLocal 2 (initialBucket 2 0) 0).2 = true ∧
    (rateLimiter 2 "x" 0 0 true ⟨1, 0⟩ []).bucket
      = (rateLimiter 2 "y" 0 0 true ⟨1, 0⟩ []).bucket ∧
    ((rateLimiter 2 "x" 0 0 true ⟨1, 0⟩ []).result
        = .error (.httpExc 429 "Too many requests (local limit)") ↔
      (rateLimiter 2 "y" 0 0 true ⟨1, 0⟩ []).result
        = .error (.httpExc 429 "Too many requests (local limit)")) :=
  c1_single_shared_bucket 2 (by norm_num) 0 0 "x" "y" 0 0 true ⟨1, 0⟩ []

/-- C4 counterexample: with the store unreachable, an otherwise fully valid
request does not receive a structured policy response — the Redis connection
error escapes the middleware (only `HTTPException` is caught there), i.e.
the failure propagates past the pipeline boundary as an unhandled fault. -/
theorem c4_counterexample :
    (authAndRateLimit [("tok1", ⟨⟨some "a", some 100⟩, true⟩)] 2
      ⟨⟨"GET", "/data", some "Bearer tok1", ""⟩, 0, 0, false,
        some (200, "hello"), "e"⟩
      ⟨⟨2, 0⟩, [], []⟩).1 = .escaped .storeConn := by
  have hd : ("Bearer tok1".drop 7) = "tok1" := rfl
  simp [authAndRateLimit, strStartsWith, listStartsWith, hd, verifyJwt,
    verifyMiss, joseDecode, assocGet, assocSet, rateLimiter, tryConsumeLocal,
    localRefill]
  try norm_num
  try simp

/-- C4 (amended): for every request that reaches the shared-counter stage
while the store is unreachable, the middleware produces no structured HTTP
response at all: the store's connection error is not an `HTTPException`, the
only exception the pipeline catches, so it escapes the pipeline boundary
unhandled (and no fail-open/fail-closed policy knob exists in the code). -/
theorem c4_store_failure_escapes (w : World) (R : ℤ) (env : Env) (st : GState)
    (hdr : String) (p : Payload) (key : String)
    (h1 : strStartsWith env.req.path "/health" = false)
    (h2 : strStartsWith env.req.path "/metrics" = false)
    (h3 : env.req.authorization = some hdr)
    (h4 : strStartsWith hdr "Bearer " = true)
    (h5 : (verifyJwt w env.nowWall st.cache (hdr.drop 7)).result = .ok p)
    (h6 : p.sub = some key) (h7 : key ≠ "")
    (h8 : (tryConsumeLocal R st.bucket env.nowMono).2 = true)
    (h9 : env.redisUp = false) :
    (authAndRateLimit w R env st).1 = .escaped .storeConn := by
  simp only [authAndRateLimit, h1, h2, h3, h4, Bool.false_eq_true, or_self,
    if_false, Bool.not_eq_true, not_false_iff, if_true, not_true,
    Bool.true_eq_false]
  rw [h5]
  dsimp only
  rw [h6]
  simp only [Option.getD_some]
  rw [if_neg h7]
  have hrl : (rateLimiter R key env.nowMono env.nowWall env.redisUp st.bucket
      st.redis).result = .error .storeError := by
    simp [rateLimiter, h8, h9]
  rw [hrl]

/-- C4 witness: concrete request hitting an unreachable store. -/
theorem c4_store_failure_escapes_witness :
    (authAndRateLimit [("tokw", ⟨⟨some "w", some 100⟩, true⟩)] 2
      ⟨⟨"GET", "/data", some "Bearer tokw", ""⟩, 0, 0, false,
        some (200, "hello"), "e"⟩
      ⟨⟨2, 0⟩, [], []⟩).1 = .escaped .storeConn :=
  c4_store_failure_escapes [("tokw", ⟨⟨some "w", some 100⟩, true⟩)] 2
    ⟨⟨"GET", "/data", some "Bearer tokw", ""⟩, 0, 0, false,
      some (200, "hello"), "e"⟩
    ⟨⟨2, 0⟩, [], []⟩ "Bearer tokw" ⟨some "w", some 100⟩ "w"
    rfl rfl rfl rfl
    (by
      have hd : ("Bearer tokw".drop 7) = "tokw" := rfl
      rw [hd]
      simp [verifyJwt, verifyMiss, joseDecode, assocGet, assocSet]
      try norm_num)
    rfl (by decide)
    (by simp [tryConsumeLocal, localRefill])
    rfl

/-- C5 counterexample: an admitted request whose backend replies
`200 "hello"` (a non-JSON body) is answered with status 200 but body
`"hello"` wrapped as a JSON string literal — `"\"hello\""` — not the
original raw bytes `"hello"`. -/
theorem c5_counterexample :
    (authAndRateLimit [("tok5", ⟨⟨some "a", some 100⟩, true⟩)] 2
      ⟨⟨"GET", "/data", some "Bearer tok5", ""⟩, 0, 0, true,
        some (200, "hello"), "e"⟩
      ⟨⟨2, 0⟩, [], []⟩).1 = .proxied 200 "\"hello\"" ∧
    relayBody "hello" = "\"hello\"" ∧
    "\"hello\"" ≠ "hello" := by
  refine ⟨?_, rfl, by decide⟩
  have hd : ("Bearer tok5".drop 7) = "tok5" := rfl
  have hr : relayBody "hello" = "\"hello\"" := rfl
  simp [authAndRateLimit, strStartsWith, listStartsWith, hd, hr, verifyJwt,
    verifyMiss, joseDecode, assocGet, assocSet, rateLimiter, tryConsumeLocal,
    localRefill, redisIncr, redisCount, redisExpire]
  try norm_num
  try simp

/-- C5 (amended): every admitted request (valid credential with a non-empty
`sub`, local and global budget available, backend responding with
`(status, body)`) is answered with exactly the backend's status code, but
with the body re-encoded as `relayBody body`: parsed as JSON and
re-serialized with compact separators when it parses, otherwise the text
serialized as a JSON string literal — not the raw backend bytes. -/
theorem c5_forward_roundtrip (w : World) (R : ℤ) (env : Env) (st : GState)
    (hdr : String) (p : Payload) (key : String) (bs : ℕ) (bb : String)
    (h1 : strStartsWith env.req.path "/health" = false)
    (h2 : strStartsWith env.req.path "/metrics" = false)
    (h3 : env.req.authorization = some hdr)
    (h4 : strStartsWith hdr "Bearer " = true)
    (h5 : (verifyJwt w env.nowWall st.cache (hdr.drop 7)).result = .ok p)
    (h6 : p.sub = some key) (h7 : key ≠ "")
    (h8 : (rateLimiter R key env.nowMono env.nowWall env.redisUp st.bucket
      st.redis).result = .ok ())
    (h9 : env.backend = some (bs, bb)) :
    (authAndRateLimit w R env st).1 = .proxied bs (relayBody bb) := by
  simp only [authAndRateLimit, h1, h2, h3, h4, Bool.false_eq_true, or_self,
    if_false, Bool.not_eq_true, not_false_iff, if_true, not_true,
    Bool.true_eq_false]
  rw [h5]
  dsimp only
  rw [h6]
  simp only [Option.getD_some]
  rw [if_neg h7]
  rw [h8]
  dsimp only
  rw [h9]

/-- C5 witness: concrete admitted request with backend body `"hello"`. -/
theorem c5_forward_roundtrip_witness :
    (authAndRateLimit [("tokv", ⟨⟨some "v", some 100⟩, true⟩)] 2
      ⟨⟨"GET", "/data", some "Bearer tokv", ""⟩, 0, 0, true,
        some (200, "hello"), "e"⟩
      ⟨⟨2, 0⟩, [], []⟩).1 = .proxied 200 (relayBody "hello") :=
  c5_forward_roundtrip [("tokv", ⟨⟨some "v", some 100⟩, true⟩)] 2
    ⟨⟨"GET", "/data", some "Bearer tokv", ""⟩, 0, 0, true,
      some (200, "hello"), "e"⟩
    ⟨⟨2, 0⟩, [], []⟩ "Bearer tokv" ⟨some "v", some 100⟩ "v" 200 "hello"
    rfl rfl rfl rfl
    (by
      have hd : ("Bearer tokv".drop 7) = "tokv" := rfl
      rw [hd]
      simp [verifyJwt, verifyMiss, joseDecode, assocGet, assocSet]
      try norm_num)
    rfl (by decide)
    (by
      have hk : rateKey "v" 0 = "rate:v:0" := rfl
      simp [rateLimiter, tryConsumeLocal, localRefill, redisIncr, redisCount,
        assocGet, hk]
      try norm_num)
    rfl

/-- C10: a request whose token verifies (signature valid, unexpired) but
whose payload has no `sub` claim (or an empty one) is answered 401
"Invalid token payload" by the middleware itself; neither the local bucket
nor the shared counter is touched (no rate-limit budget is consumed) — yet
the verification cache is still mutated: the sub-less payload is inserted
with expiry `now + 60`, and any subsequent verification of the same token
string within that window is served from the cache (`didDecode = false`). -/
theorem c10_missing_sub_cached (w : World) (R : ℤ) (env : Env) (st : GState)
    (hdr : String) (p : Payload) (now2 : Time)
    (h1 : strStartsWith env.req.path "/health" = false)
    (h2 : strStartsWith env.req.path "/metrics" = false)
    (h3 : env.req.authorization = some hdr)
    (h4 : strStartsWith hdr "Bearer " = true)
    (hmiss : assocGet st.cache (hdr.drop 7) = none)
    (hdec : joseDecode w env.nowWall (hdr.drop 7) = some p)
    (hsub : p.sub = none ∨ p.sub = some "")
    (hlt : now2 < env.nowWall + 60) :
    (authAndRateLimit w R env st).1 = .response 401 "Invalid token payload" ∧
    (authAndRateLimit w R env st).2.bucket = st.bucket ∧
    (authAndRateLimit w R env st).2.redis = st.redis ∧
    (authAndRateLimit w R env st).2.cache
      = assocSet st.cache (hdr.drop 7) (p, env.nowWall + 60) ∧
    (verifyJwt w now2 ((authAndRateLimit w R env st).2.cache)
      (hdr.drop 7)).result = .ok p ∧
    (verifyJwt w now2 ((authAndRateLimit w R env st).2.cache)
      (hdr.drop 7)).didDecode = false := by
  have hv : verifyJwt w env.nowWall st.cache (hdr.drop 7)
      = ⟨.ok p, assocSet st.cache (hdr.drop 7) (p, env.nowWall + 60), true⟩ := by
    simp only [verifyJwt, hmiss, verifyMiss, hdec]
  have hgetd : p.sub.getD "" = "" := by
    rcases hsub with h | h <;> rw [h] <;> rfl
  have hmain : authAndRateLimit w R env st
      = (.response 401 "Invalid token payload",
         { st with
            cache := assocSet st.cache (hdr.drop 7) (p, env.nowWall + 60) }) := by
    simp only [authAndRateLimit, h1, h2, h3, h4, Bool.false_eq_true, or_self,
      if_false, Bool.not_eq_true, not_false_iff, if_true, not_true,
      Bool.true_eq_false]
    rw [hv]
    dsimp only
    rw [hgetd]
    simp only [if_true, eq_self_iff_true]
  have hget2 : assocGet (assocSet st.cache (hdr.drop 7) (p, env.nowWall + 60))
      (hdr.drop 7) = some (p, env.nowWall + 60) := by
    rw [assocGet_set]
    simp
  have hv2 : verifyJwt w now2
      (assocSet st.cache (hdr.drop 7) (p, env.nowWall + 60)) (hdr.drop 7)
      = ⟨.ok p, assocSet st.cache (hdr.drop 7) (p, env.nowWall + 60), false⟩ := by
    simp only [verifyJwt, hget2]
    rw [if_pos hlt]
  rw [hmain]
  exact ⟨rfl, rfl, rfl, rfl, by rw [hv2], by rw [hv2]⟩

/-- C10 witness: a token whose payload is `{exp: 100}` with no `sub`,
presented at t = 0 and re-verified at t = 30. -/
theorem c10_missing_sub_cached_witness :
    (authAndRateLimit [("tn", ⟨⟨none, some 100⟩, true⟩)] 2
      ⟨⟨"GET", "/data", some "Bearer tn", ""⟩, 0, 0, true,
        some (200, "x"), "e"⟩
      ⟨⟨2, 0⟩, [], []⟩).1 = .response 401 "Invalid token payload" ∧
    (authAndRateLimit [("tn", ⟨⟨none, some 100⟩, true⟩)] 2
      ⟨⟨"GET", "/data", some "Bearer tn", ""⟩, 0, 0, true,
        some (200, "x"), "e"⟩
      ⟨⟨2, 0⟩, [], []⟩).2.bucket = (⟨⟨2, 0⟩, [], []⟩ : GState).bucket ∧
    (authAndRateLimit [("tn", ⟨⟨none, some 100⟩, true⟩)] 2
      ⟨⟨"GET", "/data", some "Bearer tn", ""⟩, 0, 0, true,
        some (200, "x"), "e"⟩
      ⟨⟨2, 0⟩, [], []⟩).2.redis = (⟨⟨2, 0⟩, [], []⟩ : GState).redis ∧
    (authAndRateLimit [("tn", ⟨⟨none, some 100⟩, true⟩)] 2
      ⟨⟨"GET", "/data", some "Bearer tn", ""⟩, 0, 0, true,
        some (200, "x"), "e"⟩
      ⟨⟨2, 0⟩, [], []⟩).2.cache
      = assocSet (⟨⟨2, 0⟩, [], []⟩ : GState).cache ("Bearer tn".drop 7)
          (⟨none, some 100⟩, (0 : ℚ) + 60) ∧
    (verifyJwt [("tn", ⟨⟨none, some 100⟩, true⟩)] 30
      ((authAndRateLimit [("tn", ⟨⟨none, some 100⟩, true⟩)] 2
        ⟨⟨"GET", "/data", some "Bearer tn", ""⟩, 0, 0, true,
          some (200, "x"), "e"⟩
        ⟨⟨2, 0⟩, [], []⟩).2.cache)
      ("Bearer tn".drop 7)).result = .ok ⟨none, some 100⟩ ∧
    (verifyJwt [("tn", ⟨⟨none, some 100⟩, true⟩)] 30
      ((authAndRateLimit [("tn", ⟨⟨none, some 100⟩, true⟩)] 2
        ⟨⟨"GET", "/data", some "Bearer tn", ""⟩, 0, 0, true,
          some (200, "x"), "e"⟩
        ⟨⟨2, 0⟩, [], []⟩).2.cache)
      ("Bearer tn".drop 7)).didDecode = false :=
  c10_missing_sub_cached [("tn", ⟨⟨none, some 100⟩, true⟩)] 2
    ⟨⟨"GET", "/data", some "Bearer tn", ""⟩, 0, 0, true,
      some (200, "x"), "e"⟩
    ⟨⟨2, 0⟩, [], []⟩ "Bearer tn" ⟨none, some 100⟩ 30
    rfl rfl rfl rfl rfl
    (by
      have hd : ("Bearer tn".drop 7) = "tn" := rfl
      rw [hd]
      simp [joseDecode, assocGet]
      try norm_num)
    (Or.inl rfl)
    (by norm_num)

/-- C7: starting from the initial bucket (`local_tokens = GLOBAL_RATE`),
after any sequence of local-limiter calls — and hence at every observation
point, i.e. after every prefix of the sequence — the token count satisfies
`0 ≤ tokens ≤ GLOBAL_RATE`: a consume never drives it below 0 and a refill
never raises it above capacity. -/
theorem c7_bucket_bounds (R : ℤ) (hR : 0 ≤ R) (t0 : Time) (ts : List Time)
    (n : ℕ) : bucketInv R (runLocal R (initialBucket R t0) (ts.take n)) :=
  runLocal_inv R hR (ts.take n) (initialBucket R t0) ⟨hR, le_refl R⟩

/-- C7 witness: concrete run of three consumes at capacity 2. -/
theorem c7_bucket_bounds_witness :
    (0 : ℤ) ≤ 2 ∧ bucketInv 2 (runLocal 2 (initialBucket 2 0) ([0, 0, 0].take 3)) :=
  ⟨by norm_num, c7_bucket_bounds 2 (by norm_num) 0 [0, 0, 0] 3⟩

/-- C8 counterexample: at refill rate `R = 2`, bucket `{tokens := 1,
lastRefill := 0}` and an access at `now = 1/4` (so `R*T = 1/2 < 1`), the code
performs no refill at all: `lastRefill` stays 0 instead of being updated to
`now = 1/4`, and the token count stays 1 instead of the claimed
`min(capacity, 1 + 1/2) = 3/2`. -/
theorem c8_counterexample :
    (localRefill 2 ⟨1, 0⟩ (1/4)).lastRefill = 0 ∧
    (specRefill 2 ⟨1, 0⟩ (1/4)).2 = 1/4 ∧
    (0 : ℚ) ≠ 1/4 ∧
    ((localRefill 2 ⟨1, 0⟩ (1/4)).tokens : ℚ) = 1 ∧
    (specRefill 2 ⟨1, 0⟩ (1/4)).1 = 3/2 ∧
    (1 : ℚ) ≠ 3/2 := by
  refine ⟨?_, ?_, by norm_num, ?_, ?_, by norm_num⟩
  · simp [localRefill]; norm_num
  · simp [specRefill]
  · simp [localRefill]; norm_num
  · simp [specRefill]; norm_num

/-- C8 (amended): when at least one whole token has accrued
(`R*T ≥ 1`), the next access refills to `min(capacity, t + ⌊R*T⌋)` — within
one token below the claimed exact value `min(capacity, t + R*T)`, the
truncation `int(refill)` deferring the fractional part — and updates
`lastRefill`, before attempting to consume; when `R*T < 1` the access leaves
the bucket (both `tokens` and `lastRefill`) completely unchanged. -/
theorem c8_refill_floor (R : ℤ) (b : Bucket) (now : Time) :
    ((1 : ℚ) ≤ (now - b.lastRefill) * (R : ℚ) →
      (localRefill R b now).lastRefill = now ∧
      (localRefill R b now).tokens
        = min R (b.tokens + ⌊(now - b.lastRefill) * (R : ℚ)⌋) ∧
      (specRefill R b now).1 - 1 < ((localRefill R b now).tokens : ℚ) ∧
      ((localRefill R b now).tokens : ℚ) ≤ (specRefill R b now).1) ∧
    ((now - b.lastRefill) * (R : ℚ) < 1 → localRefill R b now = b) := by
  constructor
  · intro hx
    have hcode : localRefill R b now
        = { tokens := min R (b.tokens + ⌊(now - b.lastRefill) * (R : ℚ)⌋),
            lastRefill := now } := by
      simp only [localRefill]
      rw [if_pos hx]
    have hfl : (⌊(now - b.lastRefill) * (R : ℚ)⌋ : ℚ)
        ≤ (now - b.lastRefill) * (R : ℚ) := Int.floor_le _
    have hfl2 : (now - b.lastRefill) * (R : ℚ) - 1
        < (⌊(now - b.lastRefill) * (R : ℚ)⌋ : ℚ) := Int.sub_one_lt_floor _
    refine ⟨by rw [hcode], by rw [hcode], ?_, ?_⟩
    · rw [hcode]
      unfold specRefill
      dsimp only
      push_cast [Int.cast_min]
      rw [← min_sub_sub_right]
      refine lt_min (lt_of_le_of_lt (min_le_left _ _) (by linarith))
        (lt_of_le_of_lt (min_le_right _ _) (by linarith))
    · rw [hcode]
      unfold specRefill
      dsimp only
      push_cast [Int.cast_min]
      exact min_le_min (le_refl _) (by linarith)
  · intro hx
    simp only [localRefill]
    rw [if_neg (not_le.2 hx)]

/-- C8 witness: at rate 2, a bucket `{tokens := 1, lastRefill := 0}`
accessed at `now = 1` (so `R*T = 2 ≥ 1`) refills to
`min(2, 1 + ⌊2⌋) = 2` and updates `lastRefill`. -/
theorem c8_refill_floor_witness :
    (localRefill 2 ⟨1, 0⟩ 1).lastRefill = 1 ∧
    (localRefill 2 ⟨1, 0⟩ 1).tokens
      = min 2 ((Bucket.mk 1 0).tokens
          + ⌊((1 : ℚ) - (Bucket.mk 1 0).lastRefill) * ((2 : ℤ) : ℚ)⌋) ∧
    (specRefill 2 ⟨1, 0⟩ 1).1 - 1 < ((localRefill 2 ⟨1, 0⟩ 1).tokens : ℚ) ∧
    ((localRefill 2 ⟨1, 0⟩ 1).tokens : ℚ) ≤ (specRefill 2 ⟨1, 0⟩ 1).1 :=
  (c8_refill_floor 2 ⟨1, 0⟩ 1).1 (by norm_num)

end Gateway
